import Mathlib

/-!
Shallow embedding of the text-signing core of `rcli03` (`src/process/text.rs`,
with its collaborators `src/utils.rs` and the CLI layer).

Modelling conventions:
* A Rust byte (`u8`) is a `Nat`; a byte buffer (`Vec<u8>`, `&[u8]`, `[u8; N]`)
  is a `List Nat`.
* A fallible Rust call (`anyhow::Result`) is a `RustOutcome`: `ok` for `Ok`,
  `err` for `Err`, and `fatal` for a Rust panic (e.g. an out-of-range slice
  index), which is a distinct outcome from returning an error value.
* The external crates `blake3` and `ed25519_dalek` are not part of this
  repository; their primitives enter the embedding as the fields of a
  `Crypto` parameter.  Library contracts the code relies on (output lengths,
  signature correctness) appear as explicit hypotheses of the theorems.
* I/O (`get_reader` from `src/utils.rs`, `fs::read`) is modelled by an
  environment `env : String → Option (List Nat)` mapping an input token or
  file path to the bytes it yields (`"-"` included); `none` means the open
  or read fails.  Opening a reader and draining it with `read_to_end` are
  collapsed into the single `env` lookup, so the capability functions
  `sign`/`verify` receive the already-read message bytes.
-/

/-- Outcome of a fallible Rust computation: `ok` for `Ok`, `err` for `Err`
(carrying a description of the error source), and `fatal` for a panic. -/
inductive RustOutcome (α : Type) where
  | ok : α → RustOutcome α
  | err : String → RustOutcome α
  | fatal : String → RustOutcome α
deriving DecidableEq, Repr

/-- Monadic sequencing for `RustOutcome`, the model of Rust's `?` operator:
errors and panics propagate. -/
def RustOutcome.bind {α β : Type} : RustOutcome α → (α → RustOutcome β) → RustOutcome β
  | .ok a, f => f a
  | .err e, _ => .err e
  | .fatal p, _ => .fatal p

/-- The external cryptographic primitives used by `src/process/text.rs`.
They live in the `blake3` and `ed25519_dalek` crates, outside this
repository, so the embedding abstracts them as parameters:
* `keyedHash k m` is `blake3::keyed_hash(&k, &m).as_bytes()` (a 32-byte
  digest for a 32-byte key);
* `dalekSign sk m` is `SigningKey::from_bytes(sk).sign(&m).to_bytes()`
  (a 64-byte signature);
* `dalekVerify pk m s` is `VerifyingKey::verify(&m, &s).is_ok()`;
* `derivePk sk` is `SigningKey::from_bytes(sk).verifying_key().to_bytes()`;
* `pkValid b` tells whether `VerifyingKey::from_bytes(&b)` succeeds on a
  32-byte buffer `b` (it can fail on non-canonical point encodings). -/
structure Crypto where
  keyedHash : List Nat → List Nat → List Nat
  dalekSign : List Nat → List Nat → List Nat
  dalekVerify : List Nat → List Nat → List Nat → Bool
  derivePk : List Nat → List Nat
  pkValid : List Nat → Bool

/-- The algorithm selector enum `TextSignFormat` from `src/cli/text.rs`. -/
inductive TextSignFormat where
  | blake3
  | ed25519
deriving DecidableEq, Repr

/-- The symmetric signer `struct Blake3 { key: [u8; 32] }`. -/
structure Blake3 where
  key : List Nat
deriving DecidableEq, Repr

/-- The asymmetric signer `struct Ed25519Signer { key: SigningKey }`; the
`SigningKey` is its 32-byte canonical encoding (`SigningKey::from_bytes` is
a bijection with 32-byte buffers, so the bytes represent it faithfully). -/
structure Ed25519Signer where
  key : List Nat
deriving DecidableEq, Repr

/-- The verifier `struct Ed25519Verifier { key: VerifyingKey }`; the
`VerifyingKey` is kept as the 32-byte buffer it was parsed from. -/
structure Ed25519Verifier where
  key : List Nat
deriving DecidableEq, Repr

/-- Embedding of `Blake3::try_new` (text.rs lines 172-178):
`let key = &key[..32];` panics when the buffer is shorter than 32 bytes
(an out-of-range slice index), otherwise keeps the first 32 bytes; the
subsequent `key.try_into()` on a 32-byte slice always succeeds. -/
def Blake3.try_new (key : List Nat) : RustOutcome Blake3 :=
  if key.length < 32 then
    .fatal "range end index 32 out of range"
  else
    .ok ⟨key.take 32⟩

/-- Embedding of `Ed25519Signer::try_new` (text.rs lines 184-188):
`key.try_into()` fails unless the buffer is exactly 32 bytes;
`SigningKey::from_bytes` on a 32-byte array never fails. -/
def Ed25519Signer.try_new (key : List Nat) : RustOutcome Ed25519Signer :=
  if key.length = 32 then
    .ok ⟨key⟩
  else
    .err "TryFromSliceError"

/-- Embedding of `Ed25519Verifier::try_new` (text.rs lines 195-199):
`key.try_into()` fails unless the buffer is exactly 32 bytes, and
`VerifyingKey::from_bytes` can additionally reject a 32-byte buffer that is
not a valid point encoding (the second `?`). -/
def Ed25519Verifier.try_new (c : Crypto) (key : List Nat) : RustOutcome Ed25519Verifier :=
  if key.length = 32 then
    if c.pkValid key then .ok ⟨key⟩ else .err "signature::Error"
  else
    .err "TryFromSliceError"

/-- Embedding of `impl KeyLoader for Blake3` (text.rs lines 120-128):
`fs::read(path)` then `Self::try_new`. -/
def Blake3.load (env : String → Option (List Nat)) (path : String) : RustOutcome Blake3 :=
  match env path with
  | none => .err "io::Error"
  | some key => Blake3.try_new key

/-- Embedding of `impl KeyLoader for Ed25519Signer` (text.rs lines 130-138). -/
def Ed25519Signer.load (env : String → Option (List Nat)) (path : String) :
    RustOutcome Ed25519Signer :=
  match env path with
  | none => .err "io::Error"
  | some key => Ed25519Signer.try_new key

/-- Embedding of `impl KeyLoader for Ed25519Verifier` (text.rs lines 140-148). -/
def Ed25519Verifier.load (c : Crypto) (env : String → Option (List Nat)) (path : String) :
    RustOutcome Ed25519Verifier :=
  match env path with
  | none => .err "io::Error"
  | some key => Ed25519Verifier.try_new c key

/-- Embedding of `impl TextSign for Blake3` (text.rs lines 84-90): with the
stream already drained to the buffer `m`, the signature is the keyed hash of
the message under the stored key. -/
def Blake3.sign (s : Blake3) (c : Crypto) (m : List Nat) : List Nat :=
  c.keyedHash s.key m

/-- Embedding of `impl TextSign for Ed25519Signer` (text.rs lines 92-99):
the 64 signature bytes produced by the dalek signing key on the message. -/
def Ed25519Signer.sign (s : Ed25519Signer) (c : Crypto) (m : List Nat) : List Nat :=
  c.dalekSign s.key m

/-- Embedding of `impl TextVerify for Blake3` (text.rs lines 101-109):
recompute the keyed hash and compare with `==`.  The Rust comparison is
between a `&[u8; 32]` and a `&[u8]` through `PartialEq<[B]> for [A; N]`,
which first compares lengths and yields `false` on mismatch, exactly as
equality of the two byte lists does; no error case exists besides the read. -/
def Blake3.verify (s : Blake3) (c : Crypto) (m sig : List Nat) : RustOutcome Bool :=
  .ok (decide (c.keyedHash s.key m = sig))

/-- Embedding of `impl TextVerify for Ed25519Verifier` (text.rs lines 111-118):
`sig.try_into()?` fails unless the signature buffer is exactly 64 bytes
(`Signature::from_bytes` itself never fails); then the dalek verification
result is returned as a boolean via `.is_ok()`. -/
def Ed25519Verifier.verify (v : Ed25519Verifier) (c : Crypto) (m sig : List Nat) :
    RustOutcome Bool :=
  if sig.length = 64 then
    .ok (c.dalekVerify v.key m sig)
  else
    .err "TryFromSliceError"

/-- Alphabet of URL-safe base64 (the `base64` crate's `alphabet::URL_SAFE`):
`A-Z`, `a-z`, `0-9`, `-`, `_`. -/
def b64Alphabet : List Char :=
  "ABCDEFGHIJKLMNOPQRSTUVWXYZabcdefghijklmnopqrstuvwxyz0123456789-_".data

/-- Character of the URL-safe base64 alphabet at a 6-bit index. -/
def b64Char (n : Nat) : Char :=
  b64Alphabet.getD n 'A'

/-- Index of a character in the URL-safe base64 alphabet, `none` when the
character is not in the alphabet (this also rejects `=`: the engine is
configured with `DecodePaddingMode::RequireNone`). -/
def b64Val (ch : Char) : Option Nat :=
  b64Alphabet.findIdx? (fun a => a = ch)

/-- Core of URL-safe-no-pad base64 encoding on a normalized byte list:
each group of 3 bytes becomes 4 alphabet characters; a final group of 1 or
2 bytes becomes 2 or 3 characters and no padding is emitted. -/
def encB64Bytes : List Nat → List Char
  | [] => []
  | [b1] => [b64Char (b1 / 4), b64Char (b1 % 4 * 16)]
  | [b1, b2] => [b64Char (b1 / 4), b64Char (b1 % 4 * 16 + b2 / 16), b64Char (b2 % 16 * 4)]
  | b1 :: b2 :: b3 :: rest =>
      b64Char (b1 / 4) :: b64Char (b1 % 4 * 16 + b2 / 16) ::
        b64Char (b2 % 16 * 4 + b3 / 64) :: b64Char (b3 % 64) :: encB64Bytes rest

/-- Model of `URL_SAFE_NO_PAD.encode` from the external `base64` crate:
URL-safe alphabet, no padding characters.  Inputs are reduced mod 256 first
because the crate consumes `u8` bytes. -/
def encodeB64 (bs : List Nat) : String :=
  String.mk (encB64Bytes (bs.map (· % 256)))

/-- Decoding of a list of 6-bit values back to bytes: groups of 4 values
give 3 bytes; a trailing group of 2 or 3 values gives 1 or 2 bytes provided
the unused low bits are zero (`decode_allow_trailing_bits` is `false` in the
crate's default config); a trailing single value is invalid. -/
def decB64Vals : List Nat → Option (List Nat)
  | [] => some []
  | [_] => none
  | [a, b] => if b % 16 = 0 then some [a * 4 + b / 16] else none
  | [a, b, c] => if c % 4 = 0 then some [a * 4 + b / 16, b % 16 * 16 + c / 4] else none
  | a :: b :: c :: d :: rest =>
      (decB64Vals rest).map
        (fun tl => (a * 4 + b / 16) :: (b % 16 * 16 + c / 4) :: (c % 4 * 64 + d) :: tl)

/-- Model of Rust's `str::trim`: drop whitespace characters from both ends
of the string (defined on the character list so that it evaluates by
kernel reduction). -/
def strTrim (s : String) : String :=
  String.mk (((s.data.dropWhile Char.isWhitespace).reverse.dropWhile Char.isWhitespace).reverse)

/-- Model of `URL_SAFE_NO_PAD.decode` from the external `base64` crate:
every character must belong to the URL-safe alphabet (no padding accepted),
and the value stream must decode to whole bytes. -/
def decodeB64 (s : String) : Option (List Nat) :=
  (s.data.mapM b64Val).bind decB64Vals

/-- ASCII codes of the uppercase character class used by the password
generator. -/
def genpassUpper : List Nat := (String.data "ABCDEFGHIJKLMNOPQRSTUVWXYZ").map Char.toNat

/-- ASCII codes of the lowercase character class used by the password
generator. -/
def genpassLower : List Nat := (String.data "abcdefghijklmnopqrstuvwxyz").map Char.toNat

/-- ASCII codes of the digit character class used by the password
generator. -/
def genpassDigit : List Nat := (String.data "0123456789").map Char.toNat

/-- ASCII codes of the symbol character class used by the password
generator. -/
def genpassSymbol : List Nat := (String.data "!@#$%^&*_").map Char.toNat

/-- Modelled from the spec: `process_genpass`, the password generator the
symmetric key generation calls; its source file is not part of this
repository snapshot (only its callers in `src/process/text.rs` and
`src/main.rs` are).  Per the spec it produces a string of the requested
length whose characters are drawn from the union of the enabled character
classes (uppercase, lowercase, digit, symbol), suitable for direct use as
key bytes.  Randomness is supplied as an index stream `rng`. -/
def process_genpass (len : Nat) (upper lower digit symbol : Bool) (rng : Nat → Nat) :
    List Nat :=
  let charset : List Nat :=
    (if upper then genpassUpper else []) ++ (if lower then genpassLower else []) ++
      (if digit then genpassDigit else []) ++ (if symbol then genpassSymbol else [])
  (List.range len).map (fun i => charset.getD (rng i % charset.length) 0)

/-- Embedding of `impl KeyGenerator for Blake3` (text.rs lines 150-156):
one buffer, the raw bytes of `process_genpass(32, true, true, true, true)`. -/
def Blake3.generate (rng : Nat → Nat) : RustOutcome (List (List Nat)) :=
  .ok [process_genpass 32 true true true true rng]

/-- Embedding of `impl KeyGenerator for Ed25519Signer` (text.rs lines
158-166): `SigningKey::generate(&mut OsRng)` draws 32 random bytes, here the
parameter `seed` (`sk.to_bytes()` returns exactly those bytes); the result
is the secret key bytes first, then the derived public key bytes. -/
def Ed25519Signer.generate (c : Crypto) (seed : List Nat) : RustOutcome (List (List Nat)) :=
  .ok [seed, c.derivePk seed]

/-- Embedding of `process_text_sign` (text.rs lines 39-53): resolve the
input reader (`get_reader`, modelled by the `env` lookup; `none` covers both
an open failure and a read failure), load the key with the format's loader,
sign the message, and encode the signature with URL-safe-no-pad base64. -/
def process_text_sign (c : Crypto) (env : String → Option (List Nat))
    (input key : String) (format : TextSignFormat) : RustOutcome String :=
  match env input with
  | none => .err "io::Error"
  | some m =>
    let signature : RustOutcome (List Nat) :=
      match format with
      | .blake3 => (Blake3.load env key).bind fun s => .ok (s.sign c m)
      | .ed25519 => (Ed25519Signer.load env key).bind fun s => .ok (s.sign c m)
    signature.bind fun sig => .ok (encodeB64 sig)

/-- Embedding of `process_text_verify` (text.rs lines 55-75): resolve the
input reader, decode `sig.trim()` from URL-safe-no-pad base64 (a decode
failure propagates as an error via `?`), then load the key and dispatch to
the format's verify capability. -/
def process_text_verify (c : Crypto) (env : String → Option (List Nat))
    (input key : String) (format : TextSignFormat) (sig : String) : RustOutcome Bool :=
  match env input with
  | none => .err "io::Error"
  | some m =>
    match decodeB64 (strTrim sig) with
    | none => .err "base64::DecodeError"
    | some sigBytes =>
      match format with
      | .blake3 => (Blake3.load env key).bind fun v => v.verify c m sigBytes
      | .ed25519 => (Ed25519Verifier.load c env key).bind fun v => v.verify c m sigBytes

/-- Embedding of `process_text_generate` (text.rs lines 77-82): dispatch to
the format's generate capability (the randomness of each branch is passed
explicitly). -/
def process_text_generate (c : Crypto) (format : TextSignFormat) (rng : Nat → Nat)
    (seed : List Nat) : RustOutcome (List (List Nat)) :=
  match format with
  | .blake3 => Blake3.generate rng
  | .ed25519 => Ed25519Signer.generate c seed

/-- Concrete instantiation of the abstract crypto primitives, used by the
witness theorems to evaluate the embedding on closed inputs.  It satisfies
the library contracts the theorems assume: digests are 32 bytes, signatures
are 64 bytes, and a signature produced on the derived key verifies. -/
def cTest : Crypto where
  keyedHash := fun _ _ => List.replicate 32 0
  dalekSign := fun _ _ => List.replicate 64 7
  dalekVerify := fun _ _ s => decide (s = List.replicate 64 7)
  derivePk := fun sk => sk
  pkValid := fun _ => false

/-- Concrete file environment for the witness theorems: `"in"` holds a
two-byte message, `"key"` a 32-byte key file, `"longkey"` a 40-byte key
file; every other path fails to read. -/
def envTest : String → Option (List Nat) := fun path =>
  if path = "in" then some [104, 105]
  else if path = "key" then some (List.replicate 32 0)
  else if path = "longkey" then some (List.replicate 32 0 ++ List.replicate 8 1)
  else none

/-- Discriminator for the `err` outcome, used to state that a result is not
an error value (a panic is not an `err`, matching Rust, where a panic is not
an `Err`). -/
def RustOutcome.isErr {α : Type} : RustOutcome α → Bool
  | .err _ => true
  | _ => false

/-- C1: for every byte sequence `m` and every 32-byte symmetric key `k`,
signing `m` with the Blake3 signer built from `k` and then verifying `m`
against the produced signature with the same key returns `true`. -/
theorem blake3_sign_verify_roundtrip (c : Crypto) (k m : List Nat) (hk : k.length = 32) :
    ∃ s : Blake3, Blake3.try_new k = .ok s ∧ s.verify c m (s.sign c m) = .ok true := by
  refine ⟨⟨k.take 32⟩, ?_, ?_⟩
  · simp [Blake3.try_new, hk]
  · simp [Blake3.verify, Blake3.sign]

/-- Witness for C1 at a concrete key, message, and crypto instantiation. -/
theorem blake3_sign_verify_roundtrip_witness :
    ∃ s : Blake3, Blake3.try_new (List.replicate 32 0) = .ok s ∧
      s.verify cTest [104, 105] (s.sign cTest [104, 105]) = .ok true :=
  blake3_sign_verify_roundtrip cTest (List.replicate 32 0) [104, 105] (by simp)

/-- C2: for every message `m` and every Ed25519 key pair whose public key is
derived from the secret key, signing with the signer holding `sk` and
verifying with the verifier holding the derived `pk` returns `Ok(true)`.
The two hypotheses are the `ed25519_dalek` library contract: signatures are
64 bytes, and a signature produced under `sk` verifies under the derived
public key. -/
theorem ed25519_sign_verify_roundtrip (c : Crypto)
    (hlen : ∀ sk m, (c.dalekSign sk m).length = 64)
    (hcorrect : ∀ sk m, c.dalekVerify (c.derivePk sk) m (c.dalekSign sk m) = true)
    (sk m : List Nat) :
    (Ed25519Verifier.mk (c.derivePk sk)).verify c m ((Ed25519Signer.mk sk).sign c m) =
      .ok true := by
  simp [Ed25519Verifier.verify, Ed25519Signer.sign, hlen, hcorrect]

/-- Witness for C2 at a concrete key, message, and crypto instantiation. -/
theorem ed25519_sign_verify_roundtrip_witness :
    (Ed25519Verifier.mk (cTest.derivePk (List.replicate 32 1))).verify cTest [104]
      ((Ed25519Signer.mk (List.replicate 32 1)).sign cTest [104]) = .ok true :=
  ed25519_sign_verify_roundtrip cTest (fun _ _ => by simp [cTest])
    (fun _ _ => by simp [cTest]) (List.replicate 32 1) [104]

/-- C3: constructing the symmetric key material from a buffer shorter than
32 bytes does NOT return an error result: `&key[..32]` panics on an
out-of-range slice index, so the outcome is a panic, contradicting the
spec's announced key-material error.  Evaluated at a concrete 31-byte
buffer. -/
theorem blake3_try_new_short_key_is_panic :
    Blake3.try_new (List.replicate 31 0) = RustOutcome.fatal "range end index 32 out of range" ∧
    (Blake3.try_new (List.replicate 31 0)).isErr = false := by
  constructor
  · rfl
  · rfl

/-- Counterexample for C4 as stated: for a signature of length 3 (not 32),
the Blake3 verify returns `Ok(false)` and is not an error; the Rust `==`
between the 32-byte digest array and the slice compares lengths first and
yields `false`. -/
theorem blake3_verify_wrong_length_counterexample :
    (Blake3.mk (List.replicate 32 0)).verify cTest [104, 105] [1, 2, 3] = RustOutcome.ok false ∧
    ((Blake3.mk (List.replicate 32 0)).verify cTest [104, 105] [1, 2, 3]).isErr = false := by
  constructor
  · rfl
  · rfl

/-- C4 (amended): for the symmetric (Blake3) scheme, a signature byte slice
whose length is not 32 makes verify return `Ok(false)` (it is treated as a
mismatch), not an error.  The hypothesis that the digest is 32 bytes is
the `blake3` library contract. -/
theorem blake3_verify_wrong_length_is_ok_false (c : Crypto) (s : Blake3) (m sig : List Nat)
    (hsig : sig.length ≠ 32) (hdig : (c.keyedHash s.key m).length = 32) :
    s.verify c m sig = RustOutcome.ok false := by
  have hne : c.keyedHash s.key m ≠ sig := by
    intro h
    exact hsig (h ▸ hdig)
  simp only [Blake3.verify, RustOutcome.ok.injEq]
  exact decide_eq_false hne

/-- Witness for the amended C4 at a concrete empty signature. -/
theorem blake3_verify_wrong_length_is_ok_false_witness :
    (Blake3.mk (List.replicate 32 0)).verify cTest [] [] = RustOutcome.ok false :=
  blake3_verify_wrong_length_is_ok_false cTest (Blake3.mk (List.replicate 32 0)) [] []
    (by decide) (by decide)

/-- C5: the Ed25519 verify is a hard error exactly when the signature slice
is not 64 bytes; on a 64-byte slice it returns `Ok` of the dalek boolean
verification result, never an error, once the stream read has succeeded. -/
theorem ed25519_verify_signature_length_cases :
    (∀ (c : Crypto) (v : Ed25519Verifier) (m sig : List Nat), sig.length ≠ 64 →
        v.verify c m sig = RustOutcome.err "TryFromSliceError") ∧
    (∀ (c : Crypto) (v : Ed25519Verifier) (m sig : List Nat), sig.length = 64 →
        v.verify c m sig = RustOutcome.ok (c.dalekVerify v.key m sig)) := by
  constructor
  · intro c v m sig h
    simp [Ed25519Verifier.verify, h]
  · intro c v m sig h
    simp [Ed25519Verifier.verify, h]

/-- Witness for C5: a 2-byte signature is a hard error; a 64-byte signature
produces the dalek verification boolean. -/
theorem ed25519_verify_signature_length_cases_witness :
    (Ed25519Verifier.mk (List.replicate 32 0)).verify cTest [] [1, 2] =
      RustOutcome.err "TryFromSliceError" ∧
    (Ed25519Verifier.mk (List.replicate 32 0)).verify cTest [] (List.replicate 64 0) =
      RustOutcome.ok (cTest.dalekVerify (List.replicate 32 0) [] (List.replicate 64 0)) :=
  ⟨ed25519_verify_signature_length_cases.1 cTest (Ed25519Verifier.mk (List.replicate 32 0))
      [] [1, 2] (by decide),
   ed25519_verify_signature_length_cases.2 cTest (Ed25519Verifier.mk (List.replicate 32 0))
      [] (List.replicate 64 0) (by decide)⟩

/-- C6: for both schemes, a signature of the correct byte length that does
not match the message (for Blake3, any slice different from the keyed
digest; for Ed25519, any slice the dalek check rejects — in particular a
bit-flipped or wrong-key signature) makes verify return `Ok(false)`, never
an error. -/
theorem verify_nonmatching_signature_is_ok_false :
    (∀ (c : Crypto) (s : Blake3) (m sig : List Nat), sig.length = 32 →
        sig ≠ c.keyedHash s.key m → s.verify c m sig = RustOutcome.ok false) ∧
    (∀ (c : Crypto) (v : Ed25519Verifier) (m sig : List Nat), sig.length = 64 →
        c.dalekVerify v.key m sig = false → v.verify c m sig = RustOutcome.ok false) := by
  constructor
  · intro c s m sig _ hne
    simp only [Blake3.verify, RustOutcome.ok.injEq]
    exact decide_eq_false (fun h => hne h.symm)
  · intro c v m sig hlen hfalse
    simp [Ed25519Verifier.verify, hlen, hfalse]

/-- Witness for C6: a wrong 32-byte Blake3 signature and a wrong 64-byte
Ed25519 signature both yield `Ok(false)`. -/
theorem verify_nonmatching_signature_is_ok_false_witness :
    (Blake3.mk (List.replicate 32 0)).verify cTest [104, 105] (List.replicate 32 1) =
      RustOutcome.ok false ∧
    (Ed25519Verifier.mk (List.replicate 32 0)).verify cTest [104, 105] (List.replicate 64 0) =
      RustOutcome.ok false :=
  ⟨verify_nonmatching_signature_is_ok_false.1 cTest (Blake3.mk (List.replicate 32 0))
      [104, 105] (List.replicate 32 1) (by decide) (by decide),
   verify_nonmatching_signature_is_ok_false.2 cTest (Ed25519Verifier.mk (List.replicate 32 0))
      [104, 105] (List.replicate 64 0) (by decide) (by decide)⟩

/-- C7: for any key buffer of at least 32 bytes the symmetric loader
succeeds and keeps exactly the first 32 bytes; two buffers agreeing on
their first 32 bytes produce signers with identical sign and verify
behaviour on every message and signature. -/
theorem blake3_try_new_truncates_to_first_32 (c : Crypto) (k1 k2 : List Nat)
    (h1 : 32 ≤ k1.length) (h2 : 32 ≤ k2.length) (hpre : k1.take 32 = k2.take 32) :
    ∃ s1 s2 : Blake3, Blake3.try_new k1 = .ok s1 ∧ Blake3.try_new k2 = .ok s2 ∧
      s1.key = k1.take 32 ∧ (∀ m, s1.sign c m = s2.sign c m) ∧
      (∀ m sig, s1.verify c m sig = s2.verify c m sig) := by
  refine ⟨⟨k1.take 32⟩, ⟨k2.take 32⟩, ?_, ?_, rfl, ?_, ?_⟩
  · simp [Blake3.try_new, Nat.not_lt.mpr h1]
  · simp [Blake3.try_new, Nat.not_lt.mpr h2]
  · intro m
    simp [Blake3.sign, hpre]
  · intro m sig
    simp [Blake3.verify, hpre]

/-- Witness for C7: a 32-byte key file and a 40-byte key file sharing the
first 32 bytes load to behaviourally identical signers. -/
theorem blake3_try_new_truncates_to_first_32_witness :
    ∃ s1 s2 : Blake3, Blake3.try_new (List.replicate 32 0) = .ok s1 ∧
      Blake3.try_new (List.replicate 32 0 ++ List.replicate 8 1) = .ok s2 ∧
      s1.key = (List.replicate 32 0).take 32 ∧ (∀ m, s1.sign cTest m = s2.sign cTest m) ∧
      (∀ m sig, s1.verify cTest m sig = s2.verify cTest m sig) :=
  blake3_try_new_truncates_to_first_32 cTest (List.replicate 32 0)
    (List.replicate 32 0 ++ List.replicate 8 1) (by decide) (by decide) (by decide)

/-- C9: symmetric key generation returns exactly one buffer, of 32 bytes,
obtained from the password generator invoked with length 32 and all four
character classes enabled; asymmetric key generation returns exactly two
32-byte buffers, the secret key first and the derived public key second.
The hypothesis on `derivePk` is the dalek contract that
`VerifyingKey::to_bytes` is a 32-byte array. -/
theorem process_text_generate_buffer_shapes :
    (∀ (c : Crypto) (rng : Nat → Nat) (seed : List Nat),
        process_text_generate c .blake3 rng seed =
          RustOutcome.ok [process_genpass 32 true true true true rng] ∧
        (process_genpass 32 true true true true rng).length = 32) ∧
    (∀ (c : Crypto) (rng : Nat → Nat) (seed : List Nat), seed.length = 32 →
        (∀ s : List Nat, s.length = 32 → (c.derivePk s).length = 32) →
        process_text_generate c .ed25519 rng seed = RustOutcome.ok [seed, c.derivePk seed] ∧
        seed.length = 32 ∧ (c.derivePk seed).length = 32) := by
  constructor
  · intro c rng seed
    constructor
    · rfl
    · simp [process_genpass]
  · intro c rng seed hseed hpk
    exact ⟨rfl, hseed, hpk seed hseed⟩

/-- Witness for C9 at a concrete randomness stream and seed. -/
theorem process_text_generate_buffer_shapes_witness :
    (process_text_generate cTest .blake3 (fun i => i) (List.replicate 32 5) =
        RustOutcome.ok [process_genpass 32 true true true true (fun i => i)] ∧
      (process_genpass 32 true true true true (fun i => i)).length = 32) ∧
    (process_text_generate cTest .ed25519 (fun i => i) (List.replicate 32 5) =
        RustOutcome.ok [List.replicate 32 5, cTest.derivePk (List.replicate 32 5)] ∧
      (List.replicate 32 5).length = 32 ∧ (cTest.derivePk (List.replicate 32 5)).length = 32) :=
  ⟨process_text_generate_buffer_shapes.1 cTest (fun i => i) (List.replicate 32 5),
   process_text_generate_buffer_shapes.2 cTest (fun i => i) (List.replicate 32 5)
      (by decide) (fun s hs => by simpa [cTest] using hs)⟩

/-- C10: given that some 32-byte buffer is rejected by the dalek public-key
parser (such buffers exist: not every 32-byte string is a canonical point
encoding), the Ed25519 verifier loader has an error case beyond I/O failure
and wrong length, while the Ed25519 signing-key loader accepts every
32-byte buffer and the Blake3 loader accepts every buffer of at least 32
bytes. -/
theorem ed25519_verifier_key_parse_failure (c : Crypto)
    (hbad : ∃ b : List Nat, b.length = 32 ∧ c.pkValid b = false) :
    (∃ b : List Nat, b.length = 32 ∧
        Ed25519Verifier.try_new c b = RustOutcome.err "signature::Error") ∧
    (∀ b : List Nat, b.length = 32 → Ed25519Signer.try_new b = RustOutcome.ok ⟨b⟩) ∧
    (∀ b : List Nat, 32 ≤ b.length → Blake3.try_new b = RustOutcome.ok ⟨b.take 32⟩) := by
  obtain ⟨b, hlen, hpk⟩ := hbad
  refine ⟨⟨b, hlen, ?_⟩, ?_, ?_⟩
  · simp [Ed25519Verifier.try_new, hlen, hpk]
  · intro b hb
    simp [Ed25519Signer.try_new, hb]
  · intro b hb
    simp [Blake3.try_new, Nat.not_lt.mpr hb]

/-- Witness for C10 at a concrete crypto instantiation whose public-key
parser rejects a 32-byte buffer. -/
theorem ed25519_verifier_key_parse_failure_witness :
    (∃ b : List Nat, b.length = 32 ∧
        Ed25519Verifier.try_new cTest b = RustOutcome.err "signature::Error") ∧
    (∀ b : List Nat, b.length = 32 → Ed25519Signer.try_new b = RustOutcome.ok ⟨b⟩) ∧
    (∀ b : List Nat, 32 ≤ b.length → Blake3.try_new b = RustOutcome.ok ⟨b.take 32⟩) :=
  ed25519_verifier_key_parse_failure cTest ⟨List.replicate 32 0, by decide, by decide⟩

/-- C8: the sign orchestration returns exactly the URL-safe-no-pad base64
encoding of the raw signature bytes (both formats); the verify
orchestration decodes its trimmed signature text with the same alphabet,
where a decode failure is a hard error for either format, and a successful
decode feeds the decoded bytes to the scheme's verify (shown for the
symmetric scheme). -/
theorem process_text_sign_verify_base64 :
    (∀ (c : Crypto) (env : String → Option (List Nat)) (input key : String) (m kb : List Nat),
        env input = some m → env key = some kb → 32 ≤ kb.length →
        process_text_sign c env input key .blake3 =
          RustOutcome.ok (encodeB64 ((Blake3.mk (kb.take 32)).sign c m))) ∧
    (∀ (c : Crypto) (env : String → Option (List Nat)) (input key : String) (m kb : List Nat),
        env input = some m → env key = some kb → kb.length = 32 →
        process_text_sign c env input key .ed25519 =
          RustOutcome.ok (encodeB64 ((Ed25519Signer.mk kb).sign c m))) ∧
    (∀ (c : Crypto) (env : String → Option (List Nat)) (input key : String)
        (format : TextSignFormat) (sig : String) (m : List Nat),
        env input = some m → decodeB64 (strTrim sig) = none →
        process_text_verify c env input key format sig =
          RustOutcome.err "base64::DecodeError") ∧
    (∀ (c : Crypto) (env : String → Option (List Nat)) (input key : String) (sig : String)
        (m kb bs : List Nat),
        env input = some m → decodeB64 (strTrim sig) = some bs → env key = some kb →
        32 ≤ kb.length →
        process_text_verify c env input key .blake3 sig =
          RustOutcome.ok (decide (c.keyedHash (kb.take 32) m = bs))) := by
  refine ⟨?_, ?_, ?_, ?_⟩
  · intro c env input key m kb hin hkey hlen
    simp [process_text_sign, hin, Blake3.load, hkey, Blake3.try_new, Nat.not_lt.mpr hlen,
      RustOutcome.bind]
  · intro c env input key m kb hin hkey hlen
    simp [process_text_sign, hin, Ed25519Signer.load, hkey, Ed25519Signer.try_new, hlen,
      RustOutcome.bind]
  · intro c env input key format sig m hin hdec
    simp [process_text_verify, hin, hdec]
  · intro c env input key sig m kb bs hin hdec hkey hlen
    simp [process_text_verify, hin, hdec, Blake3.load, hkey, Blake3.try_new,
      Nat.not_lt.mpr hlen, RustOutcome.bind, Blake3.verify]

/-- Witness for C8 on the concrete environment: signing the two-byte
message under both formats, rejecting the undecodable signature text
`"!"`, and verifying against the decodable signature text `"AA"`. -/
theorem process_text_sign_verify_base64_witness :
    process_text_sign cTest envTest "in" "key" .blake3 =
      RustOutcome.ok (encodeB64 ((Blake3.mk ((List.replicate 32 0).take 32)).sign cTest
        [104, 105])) ∧
    process_text_sign cTest envTest "in" "key" .ed25519 =
      RustOutcome.ok (encodeB64 ((Ed25519Signer.mk (List.replicate 32 0)).sign cTest
        [104, 105])) ∧
    process_text_verify cTest envTest "in" "key" .blake3 "!" =
      RustOutcome.err "base64::DecodeError" ∧
    process_text_verify cTest envTest "in" "key" .blake3 "AA" =
      RustOutcome.ok (decide (cTest.keyedHash ((List.replicate 32 0).take 32) [104, 105] =
        [0])) :=
  ⟨process_text_sign_verify_base64.1 cTest envTest "in" "key" [104, 105]
      (List.replicate 32 0) rfl rfl (by decide),
   process_text_sign_verify_base64.2.1 cTest envTest "in" "key" [104, 105]
      (List.replicate 32 0) rfl rfl (by decide),
   process_text_sign_verify_base64.2.2.1 cTest envTest "in" "key" .blake3 "!" [104, 105]
      rfl (by decide),
   process_text_sign_verify_base64.2.2.2 cTest envTest "in" "key" "AA" [104, 105]
      (List.replicate 32 0) [0] rfl (by decide) rfl (by decide)⟩
